import Mathlib

/-!
# Verification of the ERA5 air-density calculator

Shallow embedding of `compute_air_density` from `era5-air-density-calc.py`.
The numpy 1-D float arrays are modelled as `List α` over a linear ordered
field `α` (instantiated at `ℝ` in the theorems, with `Real.exp` for
`np.exp`); numpy's elementwise arithmetic with length-1 broadcasting is
modelled by `npBroadcast`, and the `raise` in the source by an
`Except DensityError` result (`invalidInput` for the explicit negative-value
check on line 36 of the source, `shapeMismatch` for the `ValueError` numpy
raises on non-broadcastable shapes).
-/

set_option linter.unusedSectionVars false
set_option linter.unusedVariables false

namespace ERA5

/-- Error outcomes of a call to `compute_air_density`: the generic exception
raised on line 37 of the source for negative inputs (`invalidInput`), and the
error numpy itself raises when elementwise operands have incompatible,
non-broadcastable lengths (`shapeMismatch`). -/
inductive DensityError where
  | invalidInput : DensityError
  | shapeMismatch : DensityError
  deriving DecidableEq

variable {α : Type} [LinearOrderedField α]

/-- Numpy elementwise binary operation on 1-D arrays: equal lengths combine
pointwise; a length-1 operand broadcasts against the other; any other length
mismatch is an error. -/
def npBroadcast (f : α → α → α) (xs ys : List α) : Option (List α) :=
  if xs.length = ys.length then some (List.zipWith f xs ys)
  else
    match xs, ys with
    | [a], ys => some (ys.map fun y => f a y)
    | xs, [b] => some (xs.map fun x => f x b)
    | _, _ => none

/-- Embedding of `compute_air_density(temp_col, pres_col, humi_col=None)`
(source lines 19-46): default the relative humidity to `0.5` repeated
`len(temp_col)` times, raise if any input value is negative, then evaluate
`rho = (1/temp) * (pres/R_const - rel_humidity * (0.0000205*exp(0.0631846*temp))
* (1/R_const - 1/Rw_const))` with numpy elementwise semantics. The
`astype(float)` on line 40 is the identity in this real-valued model. -/
def compute_air_density (E : α → α) (temp_col pres_col : List α)
    (humi_col : Option (List α)) : Except DensityError (List α) :=
  let rel_humidity := humi_col.getD (List.replicate temp_col.length (0.5 : α))
  if temp_col.any (fun x => decide (x < 0)) || pres_col.any (fun x => decide (x < 0)) ||
      rel_humidity.any (fun x => decide (x < 0)) then
    Except.error DensityError.invalidInput
  else
    let R_const : α := 287.05
    let Rw_const : α := 461.5
    match npBroadcast (fun a b => a * b) rel_humidity
        (temp_col.map fun t => (0.0000205 : α) * E (0.0631846 * t)) with
    | none => Except.error DensityError.shapeMismatch
    | some vap =>
      match npBroadcast (fun a b => a - b) (pres_col.map fun p => p / R_const)
          (vap.map fun x => x * (1 / R_const - 1 / Rw_const)) with
      | none => Except.error DensityError.shapeMismatch
      | some diff =>
        match npBroadcast (fun a b => a * b) (temp_col.map fun t => 1 / t) diff with
        | none => Except.error DensityError.shapeMismatch
        | some rho => Except.ok rho

/-- The spec's scalar formula, written from the spec's words:
`density(T, P, phi) = (1/T) * ( P/R_dry - phi * saturation_vapor_factor(T)
* (1/R_dry - 1/R_wv) )` with `saturation_vapor_factor(T) =
0.0000205 * exp(0.0631846 * T)`, `R_dry = 287.05`, `R_wv = 461.5`. -/
def density_spec (E : α → α) (t p phi : α) : α :=
  (1 / t) * (p / 287.05 - phi * (0.0000205 * E (0.0631846 * t)) * (1 / 287.05 - 1 / 461.5))

/-- Pointwise application of the scalar density formula to three aligned
sequences (the normal form of the successful computation). -/
def density_pointwise (E : α → α) : List α → List α → List α → List α
  | t :: ts, p :: ps, h :: hs => density_spec E t p h :: density_pointwise E ts ps hs
  | _, _, _ => []

/-- Embedding of `compute_air_density` applied to integer-valued input arrays:
the validation on line 36 compares the original integer values, and the
`astype(float)` on line 40 becomes the cast `ℤ → α` before the arithmetic
(numpy's true division promotes the remaining integer operands the same way). -/
def compute_air_density_int (E : α → α) (temp_col pres_col : List ℤ)
    (humi_col : Option (List ℤ)) : Except DensityError (List α) :=
  if temp_col.any (fun x => decide (x < 0)) || pres_col.any (fun x => decide (x < 0)) ||
      (match humi_col with
       | some h => h.any (fun x => decide (x < 0))
       | none => false) then
    Except.error DensityError.invalidInput
  else
    let temp : List α := temp_col.map fun x => (Int.cast x : α)
    let pres : List α := pres_col.map fun x => (Int.cast x : α)
    let rel_humidity : List α :=
      match humi_col with
      | some h => h.map fun x => (Int.cast x : α)
      | none => List.replicate temp_col.length (0.5 : α)
    let R_const : α := 287.05
    let Rw_const : α := 461.5
    match npBroadcast (fun a b => a * b) rel_humidity
        (temp.map fun t => (0.0000205 : α) * E (0.0631846 * t)) with
    | none => Except.error DensityError.shapeMismatch
    | some vap =>
      match npBroadcast (fun a b => a - b) (pres.map fun p => p / R_const)
          (vap.map fun x => x * (1 / R_const - 1 / Rw_const)) with
      | none => Except.error DensityError.shapeMismatch
      | some diff =>
        match npBroadcast (fun a b => a * b) (temp.map fun t => 1 / t) diff with
        | none => Except.error DensityError.shapeMismatch
        | some rho => Except.ok rho

/-- On equal-length operands `npBroadcast` is `zipWith`. -/
theorem npBroadcast_of_length_eq (f : α → α → α) {xs ys : List α}
    (h : xs.length = ys.length) :
    npBroadcast f xs ys = some (List.zipWith f xs ys) := by
  simp [npBroadcast, h]

/-- A length-1 left operand broadcasts over the right operand. -/
theorem npBroadcast_singleton_left (f : α → α → α) (a : α) (ys : List α) :
    npBroadcast f [a] ys = some (ys.map fun y => f a y) := by
  match ys with
  | [] => simp [npBroadcast]
  | [b] => simp [npBroadcast]
  | b :: c :: cs => simp [npBroadcast]

/-- The numpy elementwise chain of line 44 of the source, on three
equal-length sequences, is the pointwise application of the scalar formula. -/
theorem density_chain_eq (E : α → α) :
    ∀ (temp pres rh : List α), pres.length = temp.length → rh.length = temp.length →
      List.zipWith (fun a b => a * b) (temp.map fun t => 1 / t)
        (List.zipWith (fun a b => a - b) (pres.map fun p => p / (287.05 : α))
          ((List.zipWith (fun a b => a * b) rh
              (temp.map fun t => (0.0000205 : α) * E (0.0631846 * t))).map
            fun x => x * (1 / (287.05 : α) - 1 / (461.5 : α))))
      = density_pointwise E temp pres rh := by
  intro temp
  induction temp with
  | nil =>
    intro pres rh h1 h2
    simp [density_pointwise]
  | cons t ts ih =>
    intro pres rh h1 h2
    cases pres with
    | nil => simp at h1
    | cons p ps =>
      cases rh with
      | nil => simp at h2
      | cons h hs =>
        simp only [List.map_cons, List.zipWith_cons_cons, density_pointwise]
        exact congrArg (List.cons (density_spec E t p h))
          (ih ps hs (by simpa using h1) (by simpa using h2))

/-- Successful run of `compute_air_density` with explicit equal-length
humidity: all inputs nonnegative gives `ok` of the pointwise formula. -/
theorem compute_air_density_eq_ok (E : α → α) (temp pres rh : List α)
    (h1 : pres.length = temp.length) (h2 : rh.length = temp.length)
    (ht : ∀ x ∈ temp, 0 ≤ x) (hp : ∀ x ∈ pres, 0 ≤ x) (hr : ∀ x ∈ rh, 0 ≤ x) :
    compute_air_density E temp pres (some rh)
      = Except.ok (density_pointwise E temp pres rh) := by
  have hta : temp.any (fun x => decide (x < 0)) = false := by
    simp only [List.any_eq_false, decide_eq_true_eq]
    exact fun x hx => not_lt.mpr (ht x hx)
  have hpa : pres.any (fun x => decide (x < 0)) = false := by
    simp only [List.any_eq_false, decide_eq_true_eq]
    exact fun x hx => not_lt.mpr (hp x hx)
  have hra : rh.any (fun x => decide (x < 0)) = false := by
    simp only [List.any_eq_false, decide_eq_true_eq]
    exact fun x hx => not_lt.mpr (hr x hx)
  have hb1 : rh.length = (temp.map fun t => (0.0000205 : α) * E (0.0631846 * t)).length := by
    simp [h2]
  rw [compute_air_density]
  simp only [Option.getD_some, hta, hpa, hra, Bool.or_self, Bool.or_false, Bool.false_or,
    Bool.false_eq_true, if_false]
  simp only [npBroadcast_of_length_eq _ hb1]
  have hb2 : (pres.map fun p => p / (287.05 : α)).length =
      (((List.zipWith (fun a b => a * b) rh
        (temp.map fun t => (0.0000205 : α) * E (0.0631846 * t))).map
          fun x => x * (1 / (287.05 : α) - 1 / (461.5 : α)))).length := by
    simp [h1, h2]
  simp only [npBroadcast_of_length_eq _ hb2]
  have hb3 : (temp.map fun t => 1 / t).length =
      (List.zipWith (fun a b => a - b) (pres.map fun p => p / (287.05 : α))
        ((List.zipWith (fun a b => a * b) rh
          (temp.map fun t => (0.0000205 : α) * E (0.0631846 * t))).map
            fun x => x * (1 / (287.05 : α) - 1 / (461.5 : α)))).length := by
    simp [h1, h2]
  simp only [npBroadcast_of_length_eq _ hb3]
  rw [density_chain_eq E temp pres rh h1 h2]

/-- Length of the pointwise density sequence. -/
theorem density_pointwise_length (E : α → α) :
    ∀ (ts ps hs : List α),
      (density_pointwise E ts ps hs).length = min ts.length (min ps.length hs.length) := by
  intro ts
  induction ts with
  | nil => intro ps hs; simp [density_pointwise]
  | cons t ts ih =>
    intro ps hs
    cases ps with
    | nil => simp [density_pointwise]
    | cons p ps =>
      cases hs with
      | nil => simp [density_pointwise]
      | cons h hs =>
        simp only [density_pointwise, List.length_cons, ih]
        omega

/-- Index-for-index description of the pointwise density sequence. -/
theorem density_pointwise_getElem (E : α → α) :
    ∀ (ts ps hs : List α) (i : ℕ) (x y z : α),
      ts[i]? = some x → ps[i]? = some y → hs[i]? = some z →
      (density_pointwise E ts ps hs)[i]? = some (density_spec E x y z) := by
  intro ts
  induction ts with
  | nil => intro ps hs i x y z hx; simp at hx
  | cons t ts ih =>
    intro ps hs i x y z hx hy hz
    cases ps with
    | nil => simp at hy
    | cons p ps =>
      cases hs with
      | nil => simp at hz
      | cons h hs =>
        cases i with
        | zero =>
          simp only [List.getElem?_cons_zero, Option.some.injEq] at hx hy hz
          subst hx
          subst hy
          subst hz
          simp [density_pointwise]
        | succ i =>
          simp only [List.getElem?_cons_succ] at hx hy hz
          simpa [density_pointwise] using ih ps hs i x y z hx hy hz

/-- C1: for equal-length nonnegative inputs with every temperature nonzero,
`compute_air_density` succeeds and its output at each index `i` is exactly the
IEC 61400-12 formula `(1/T[i]) * (P[i]/287.05 - phi[i] *
(0.0000205 * exp(0.0631846 * T[i])) * (1/287.05 - 1/461.5))`. -/
theorem compute_air_density_matches_spec_formula (temp pres phi : List ℝ)
    (h1 : pres.length = temp.length) (h2 : phi.length = temp.length)
    (ht : ∀ x ∈ temp, 0 ≤ x) (hp : ∀ x ∈ pres, 0 ≤ x) (hphi : ∀ x ∈ phi, 0 ≤ x)
    (htne : ∀ x ∈ temp, x ≠ 0) :
    ∃ res, compute_air_density Real.exp temp pres (some phi) = Except.ok res ∧
      ∀ (i : ℕ) (hit : i < temp.length) (hip : i < pres.length) (hiphi : i < phi.length),
        res[i]? = some ((1 / temp[i]) * (pres[i] / 287.05 -
          phi[i] * (0.0000205 * Real.exp (0.0631846 * temp[i])) *
            (1 / 287.05 - 1 / 461.5))) := by
  refine ⟨density_pointwise Real.exp temp pres phi,
    compute_air_density_eq_ok _ _ _ _ h1 h2 ht hp hphi, ?_⟩
  intro i hit hip hiphi
  exact density_pointwise_getElem Real.exp temp pres phi i _ _ _
    (List.getElem?_eq_getElem hit) (List.getElem?_eq_getElem hip)
    (List.getElem?_eq_getElem hiphi)

/-- Witness for C1 at `T=[1]`, `P=[0]`, `phi=[0]`. -/
theorem compute_air_density_matches_spec_formula_witness :
    (∀ x ∈ [(1 : ℝ)], 0 ≤ x) ∧ (∀ x ∈ [(0 : ℝ)], 0 ≤ x) ∧ (∀ x ∈ [(1 : ℝ)], x ≠ 0) ∧
    ∃ res, compute_air_density Real.exp [(1 : ℝ)] [(0 : ℝ)] (some [(0 : ℝ)]) = Except.ok res ∧
      ∀ (i : ℕ) (hit : i < [(1 : ℝ)].length) (hip : i < [(0 : ℝ)].length)
        (hiphi : i < [(0 : ℝ)].length),
        res[i]? = some ((1 / [(1 : ℝ)][i]) * ([(0 : ℝ)][i] / 287.05 -
          [(0 : ℝ)][i] * (0.0000205 * Real.exp (0.0631846 * [(1 : ℝ)][i])) *
            (1 / 287.05 - 1 / 461.5))) :=
  ⟨by norm_num, by norm_num, by norm_num,
    compute_air_density_matches_spec_formula [1] [0] [0] rfl rfl
      (by norm_num) (by norm_num) (by norm_num) (by norm_num)⟩

/-- C2: a call fails with the invalid-input error exactly when some element of
temperature, pressure, or a supplied humidity sequence is negative; the
validation precedes the arithmetic, so no partial result exists on failure,
and all-nonnegative inputs never produce this error. -/
theorem compute_air_density_invalid_iff (temp pres : List ℝ) (humi : Option (List ℝ)) :
    compute_air_density Real.exp temp pres humi = Except.error DensityError.invalidInput ↔
      ((∃ x ∈ temp, x < 0) ∨ (∃ x ∈ pres, x < 0) ∨
        (∃ h, humi = some h ∧ ∃ x ∈ h, x < 0)) := by
  constructor
  · intro hres
    by_contra hneg
    push_neg at hneg
    obtain ⟨hnt, hnp, hnh⟩ := hneg
    have hrel : ∀ x ∈ humi.getD (List.replicate temp.length (0.5 : ℝ)), 0 ≤ x := by
      cases humi with
      | none =>
        intro x hx
        have := List.eq_of_mem_replicate hx
        rw [this]
        norm_num
      | some h =>
        intro x hx
        exact hnh h rfl x hx
    have hcond : (temp.any (fun x => decide (x < 0)) || pres.any (fun x => decide (x < 0)) ||
        (humi.getD (List.replicate temp.length (0.5 : ℝ))).any (fun x => decide (x < 0)))
          = false := by
      simp only [Bool.or_eq_false_iff, List.any_eq_false, decide_eq_true_eq]
      exact ⟨⟨fun x hx => not_lt.mpr (hnt x hx), fun x hx => not_lt.mpr (hnp x hx)⟩,
        fun x hx => not_lt.mpr (hrel x hx)⟩
    rw [compute_air_density] at hres
    simp only [hcond, Bool.false_eq_true, if_false] at hres
    split at hres
    · simp at hres
    · split at hres
      · simp at hres
      · split at hres
        · simp at hres
        · simp at hres
  · intro hneg
    have hcond : (temp.any (fun x => decide (x < 0)) || pres.any (fun x => decide (x < 0)) ||
        (humi.getD (List.replicate temp.length (0.5 : ℝ))).any (fun x => decide (x < 0)))
          = true := by
      rcases hneg with ⟨x, hx, hx0⟩ | ⟨x, hx, hx0⟩ | ⟨h, hh, x, hx, hx0⟩
      · simp only [Bool.or_eq_true, List.any_eq_true, decide_eq_true_eq]
        exact Or.inl (Or.inl ⟨x, hx, hx0⟩)
      · simp only [Bool.or_eq_true, List.any_eq_true, decide_eq_true_eq]
        exact Or.inl (Or.inr ⟨x, hx, hx0⟩)
      · subst hh
        simp only [Bool.or_eq_true, List.any_eq_true, decide_eq_true_eq, Option.getD_some]
        exact Or.inr ⟨x, hx, hx0⟩
    rw [compute_air_density]
    simp only [hcond, if_true]

/-- C3: omitting the humidity argument is definitionally the same call as
passing the constant sequence `0.5` repeated `len(T)` times. -/
theorem compute_air_density_default_humidity (temp pres : List ℝ) :
    compute_air_density Real.exp temp pres none
      = compute_air_density Real.exp temp pres (some (List.replicate temp.length 0.5)) := rfl

/-- C4: on valid equal-length inputs the computation succeeds, the output
length equals the input length, and the element at each index is the density
of the sample at that same index — nothing is dropped or reordered. -/
theorem compute_air_density_length_alignment (temp pres phi : List ℝ)
    (h1 : pres.length = temp.length) (h2 : phi.length = temp.length)
    (ht : ∀ x ∈ temp, 0 ≤ x) (hp : ∀ x ∈ pres, 0 ≤ x) (hphi : ∀ x ∈ phi, 0 ≤ x) :
    ∃ res, compute_air_density Real.exp temp pres (some phi) = Except.ok res ∧
      res.length = temp.length ∧
      ∀ (i : ℕ) (x y z : ℝ), temp[i]? = some x → pres[i]? = some y → phi[i]? = some z →
        res[i]? = some (density_spec Real.exp x y z) := by
  refine ⟨density_pointwise Real.exp temp pres phi,
    compute_air_density_eq_ok _ _ _ _ h1 h2 ht hp hphi, ?_, ?_⟩
  · simp [density_pointwise_length, h1, h2]
  · intro i x y z hx hy hz
    exact density_pointwise_getElem _ _ _ _ _ _ _ _ hx hy hz

/-- Witness for C4 at `T=[300]`, `P=[100000]`, `phi=[0.5]`. -/
theorem compute_air_density_length_alignment_witness :
    (∀ x ∈ [(300 : ℝ)], 0 ≤ x) ∧ (∀ x ∈ [(100000 : ℝ)], 0 ≤ x) ∧ (∀ x ∈ [(0.5 : ℝ)], 0 ≤ x) ∧
    ∃ res, compute_air_density Real.exp [(300 : ℝ)] [(100000 : ℝ)] (some [(0.5 : ℝ)])
        = Except.ok res ∧
      res.length = [(300 : ℝ)].length ∧
      ∀ (i : ℕ) (x y z : ℝ), [(300 : ℝ)][i]? = some x → [(100000 : ℝ)][i]? = some y →
        [(0.5 : ℝ)][i]? = some z → res[i]? = some (density_spec Real.exp x y z) :=
  ⟨by norm_num, by norm_num, by norm_num,
    compute_air_density_length_alignment [300] [100000] [0.5] rfl rfl
      (by norm_num) (by norm_num) (by norm_num)⟩

/-- C7: the embedded computation is a pure function — identical inputs give
identical outputs, with no hidden state (side-effect freedom is inherent to
the functional embedding: the input sequences are immutable values). -/
theorem compute_air_density_deterministic (temp1 pres1 temp2 pres2 : List ℝ)
    (humi1 humi2 : Option (List ℝ)) (he1 : temp1 = temp2) (he2 : pres1 = pres2)
    (he3 : humi1 = humi2) :
    compute_air_density Real.exp temp1 pres1 humi1
      = compute_air_density Real.exp temp2 pres2 humi2 := by
  rw [he1, he2, he3]

/-- Witness for C7: two calls on the standard-atmosphere sample agree. -/
theorem compute_air_density_deterministic_witness :
    compute_air_density Real.exp [(288.15 : ℝ)] [(101325 : ℝ)] (some [(0.5 : ℝ)])
      = compute_air_density Real.exp [(288.15 : ℝ)] [(101325 : ℝ)] (some [(0.5 : ℝ)]) :=
  compute_air_density_deterministic [288.15] [101325] [288.15] [101325]
    (some [0.5]) (some [0.5]) rfl rfl rfl

/-- With zero humidity the pointwise density is the dry-air ideal gas law. -/
theorem density_pointwise_zero (E : α → α) :
    ∀ (ts ps : List α), density_pointwise E ts ps (List.replicate ts.length 0)
      = List.zipWith (fun t p => p / (287.05 * t)) ts ps := by
  intro ts
  induction ts with
  | nil => intro ps; simp [density_pointwise]
  | cons t ts ih =>
    intro ps
    cases ps with
    | nil => simp [density_pointwise, List.replicate_succ]
    | cons p ps =>
      simp only [List.length_cons, List.replicate_succ, density_pointwise,
        List.zipWith_cons_cons, ih]
      congr 1
      rw [density_spec]
      ring

/-- C6: with humidity identically zero the water-vapor term vanishes and the
computation reduces elementwise to the dry-air ideal gas law `P/(287.05*T)`. -/
theorem compute_air_density_zero_humidity_dry (temp pres : List ℝ)
    (h1 : pres.length = temp.length)
    (ht : ∀ x ∈ temp, 0 ≤ x) (hp : ∀ x ∈ pres, 0 ≤ x) :
    compute_air_density Real.exp temp pres (some (List.replicate temp.length 0))
      = Except.ok (List.zipWith (fun t p => p / (287.05 * t)) temp pres) := by
  have hr : ∀ x ∈ List.replicate temp.length (0 : ℝ), 0 ≤ x := by
    intro x hx
    rw [List.eq_of_mem_replicate hx]
  rw [compute_air_density_eq_ok Real.exp temp pres _ h1 (by simp) ht hp hr]
  rw [density_pointwise_zero]

/-- Witness for C6 at `T=[250]`, `P=[90000]`: the density is exactly
`90000/(287.05*250)`. -/
theorem compute_air_density_zero_humidity_dry_witness :
    ([(90000 : ℝ)].length = [(250 : ℝ)].length) ∧ (∀ x ∈ [(250 : ℝ)], 0 ≤ x) ∧
    (∀ x ∈ [(90000 : ℝ)], 0 ≤ x) ∧
    compute_air_density Real.exp [(250 : ℝ)] [(90000 : ℝ)]
        (some (List.replicate [(250 : ℝ)].length 0))
      = Except.ok [(90000 : ℝ) / (287.05 * 250)] :=
  ⟨rfl, by norm_num, by norm_num, by
    simpa using compute_air_density_zero_humidity_dry [250] [90000] rfl
      (by norm_num) (by norm_num)⟩

/-- The scalar density formula is strictly increasing in pressure when the
temperature is positive. -/
theorem density_spec_lt_of_pres_lt (E : ℝ → ℝ) (t p1 p2 phi : ℝ)
    (htpos : 0 < t) (hplt : p1 < p2) :
    density_spec E t p1 phi < density_spec E t p2 phi := by
  rw [density_spec, density_spec]
  apply mul_lt_mul_of_pos_left _ (one_div_pos.mpr htpos)
  apply sub_lt_sub_right
  exact (div_lt_div_iff_of_pos_right (by norm_num)).mpr hplt

/-- C9: with temperature and humidity fixed, a strictly larger pressure at an
index gives a strictly larger density at that index. -/
theorem compute_air_density_strict_mono_pressure (temp pres1 pres2 phi : List ℝ)
    (hl1 : pres1.length = temp.length) (hl2 : pres2.length = temp.length)
    (hlphi : phi.length = temp.length)
    (ht : ∀ x ∈ temp, 0 ≤ x) (hp1 : ∀ x ∈ pres1, 0 ≤ x) (hp2 : ∀ x ∈ pres2, 0 ≤ x)
    (hphi : ∀ x ∈ phi, 0 ≤ x)
    (i : ℕ) (hit : i < temp.length) (hi1 : i < pres1.length) (hi2 : i < pres2.length)
    (hiphi : i < phi.length)
    (htpos : 0 < temp[i]) (hplt : pres1[i] < pres2[i]) :
    ∃ res1 res2, compute_air_density Real.exp temp pres1 (some phi) = Except.ok res1 ∧
      compute_air_density Real.exp temp pres2 (some phi) = Except.ok res2 ∧
      ∃ d1 d2, res1[i]? = some d1 ∧ res2[i]? = some d2 ∧ d1 < d2 := by
  refine ⟨density_pointwise Real.exp temp pres1 phi, density_pointwise Real.exp temp pres2 phi,
    compute_air_density_eq_ok _ _ _ _ hl1 hlphi ht hp1 hphi,
    compute_air_density_eq_ok _ _ _ _ hl2 hlphi ht hp2 hphi,
    density_spec Real.exp temp[i] pres1[i] phi[i],
    density_spec Real.exp temp[i] pres2[i] phi[i],
    density_pointwise_getElem Real.exp temp pres1 phi i _ _ _
      (List.getElem?_eq_getElem hit) (List.getElem?_eq_getElem hi1)
      (List.getElem?_eq_getElem hiphi),
    density_pointwise_getElem Real.exp temp pres2 phi i _ _ _
      (List.getElem?_eq_getElem hit) (List.getElem?_eq_getElem hi2)
      (List.getElem?_eq_getElem hiphi),
    density_spec_lt_of_pres_lt Real.exp temp[i] pres1[i] pres2[i] phi[i] htpos hplt⟩

/-- Witness for C9 at `T=[280]`, `P1=[90000]`, `P2=[101325]`, `phi=[0.5]`. -/
theorem compute_air_density_strict_mono_pressure_witness :
    (0 : ℝ) < [(280 : ℝ)][0] ∧ [(90000 : ℝ)][0] < [(101325 : ℝ)][0] ∧
    ∃ res1 res2,
      compute_air_density Real.exp [(280 : ℝ)] [(90000 : ℝ)] (some [(0.5 : ℝ)])
        = Except.ok res1 ∧
      compute_air_density Real.exp [(280 : ℝ)] [(101325 : ℝ)] (some [(0.5 : ℝ)])
        = Except.ok res2 ∧
      ∃ d1 d2, res1[0]? = some d1 ∧ res2[0]? = some d2 ∧ d1 < d2 :=
  ⟨by norm_num, by norm_num,
    compute_air_density_strict_mono_pressure [280] [90000] [101325] [0.5]
      rfl rfl rfl (by norm_num) (by norm_num) (by norm_num) (by norm_num)
      0 (by norm_num) (by norm_num) (by norm_num) (by norm_num)
      (by norm_num) (by norm_num)⟩

/-- The numpy chain after broadcasting a single humidity value `h0` equals the
pointwise formula with `h0` replicated across all samples. -/
theorem density_chain_broadcast (E : α → α) (h0 : α) :
    ∀ (temp pres : List α), pres.length = temp.length →
      List.zipWith (fun a b => a * b) (temp.map fun t => 1 / t)
        (List.zipWith (fun a b => a - b) (pres.map fun p => p / (287.05 : α))
          (((temp.map fun t => (0.0000205 : α) * E (0.0631846 * t)).map fun y => h0 * y).map
            fun x => x * (1 / (287.05 : α) - 1 / (461.5 : α))))
      = density_pointwise E temp pres (List.replicate temp.length h0) := by
  intro temp
  induction temp with
  | nil => intro pres h1; simp [density_pointwise]
  | cons t ts ih =>
    intro pres h1
    cases pres with
    | nil => simp at h1
    | cons p ps =>
      simp only [List.map_cons, List.zipWith_cons_cons, List.length_cons,
        List.replicate_succ, density_pointwise]
      exact congrArg (List.cons (density_spec E t p h0)) (ih ps (by simpa using h1))

/-- C10: a supplied humidity sequence of length 1 is never rejected for its
length — it is silently broadcast, i.e. the call behaves exactly as if that
single nonnegative humidity value were supplied for every sample. -/
theorem compute_air_density_broadcasts_singleton_humidity (temp pres : List ℝ)
    (h1 : pres.length = temp.length)
    (ht : ∀ x ∈ temp, 0 ≤ x) (hp : ∀ x ∈ pres, 0 ≤ x) (h0 : ℝ) (hh0 : 0 ≤ h0) :
    compute_air_density Real.exp temp pres (some [h0])
      = compute_air_density Real.exp temp pres (some (List.replicate temp.length h0)) := by
  have hrep : ∀ x ∈ List.replicate temp.length h0, 0 ≤ x := by
    intro x hx
    rw [List.eq_of_mem_replicate hx]
    exact hh0
  rw [compute_air_density_eq_ok Real.exp temp pres _ h1 (by simp) ht hp hrep]
  have hta : temp.any (fun x => decide (x < 0)) = false := by
    simp only [List.any_eq_false, decide_eq_true_eq]
    exact fun x hx => not_lt.mpr (ht x hx)
  have hpa : pres.any (fun x => decide (x < 0)) = false := by
    simp only [List.any_eq_false, decide_eq_true_eq]
    exact fun x hx => not_lt.mpr (hp x hx)
  have hha : List.any [h0] (fun x => decide (x < 0)) = false := by
    simp only [List.any_eq_false, decide_eq_true_eq, List.mem_singleton]
    intro x hx
    rw [hx]
    exact not_lt.mpr hh0
  rw [compute_air_density]
  simp only [Option.getD_some, hta, hpa, hha, Bool.or_self, Bool.or_false, Bool.false_or,
    Bool.false_eq_true, if_false]
  simp only [npBroadcast_singleton_left]
  have hb2 : (pres.map fun p => p / (287.05 : ℝ)).length =
      (((temp.map fun t => (0.0000205 : ℝ) * Real.exp (0.0631846 * t)).map
        fun y => h0 * y).map fun x => x * (1 / (287.05 : ℝ) - 1 / (461.5 : ℝ))).length := by
    simp [h1]
  simp only [npBroadcast_of_length_eq _ hb2]
  have hb3 : (temp.map fun t => 1 / t).length =
      (List.zipWith (fun a b => a - b) (pres.map fun p => p / (287.05 : ℝ))
        (((temp.map fun t => (0.0000205 : ℝ) * Real.exp (0.0631846 * t)).map
          fun y => h0 * y).map fun x => x * (1 / (287.05 : ℝ) - 1 / (461.5 : ℝ)))).length := by
    simp [h1]
  simp only [npBroadcast_of_length_eq _ hb3]
  rw [density_chain_broadcast Real.exp h0 temp pres h1]

/-- Witness for C10: a length-1 humidity against two samples broadcasts. -/
theorem compute_air_density_broadcasts_singleton_humidity_witness :
    ([(100000 : ℝ), 90000].length = [(300 : ℝ), 280].length) ∧ (0 : ℝ) ≤ 0.5 ∧
    compute_air_density Real.exp [(300 : ℝ), 280] [(100000 : ℝ), 90000] (some [(0.5 : ℝ)])
      = compute_air_density Real.exp [(300 : ℝ), 280] [(100000 : ℝ), 90000]
          (some (List.replicate [(300 : ℝ), 280].length 0.5)) :=
  ⟨rfl, by norm_num,
    compute_air_density_broadcasts_singleton_humidity [300, 280] [100000, 90000] rfl
      (by norm_num) (by norm_num) 0.5 (by norm_num)⟩

/-- Negativity tests commute with the cast `ℤ → α`. -/
theorem any_neg_map_intCast (l : List ℤ) :
    (l.map fun x => (Int.cast x : α)).any (fun x => decide (x < 0))
      = l.any (fun x => decide (x < 0)) := by
  induction l with
  | nil => rfl
  | cons a l ih =>
    simp only [List.map_cons, List.any_cons, ih]
    simp [Int.cast_lt_zero]

/-- C8: running the calculator on integer-valued input sequences (with the
source's `astype(float)` coercion) gives exactly the result of running it on
the corresponding float-valued sequences — no integer division occurs. -/
theorem compute_air_density_int_eq_cast (temp pres : List ℤ) (humi : Option (List ℤ)) :
    compute_air_density_int Real.exp temp pres humi
      = compute_air_density Real.exp (temp.map fun x => (Int.cast x : ℝ))
          (pres.map fun x => (Int.cast x : ℝ))
          (humi.map fun h => h.map fun x => (Int.cast x : ℝ)) := by
  cases humi with
  | none =>
    have hrep : ∀ n : ℕ, (List.replicate n (0.5 : ℝ)).any (fun x => decide (x < 0)) = false := by
      intro n
      simp only [List.any_eq_false, decide_eq_true_eq]
      intro x hx
      rw [List.eq_of_mem_replicate hx]
      norm_num
    rw [compute_air_density_int, compute_air_density]
    simp only [Option.map_none', Option.getD_none, List.length_map,
      any_neg_map_intCast, hrep]
  | some h =>
    rw [compute_air_density_int, compute_air_density]
    simp only [Option.map_some', Option.getD_some, any_neg_map_intCast]

/-- Lower bound for the saturation-vapor exponential at `T = 288.15`. -/
theorem exp_std_lb : (65000000 : ℝ) < Real.exp (0.0631846 * 288.15) := by
  have h18 : Real.exp 18 = Real.exp 1 ^ 18 := by
    rw [show (18 : ℝ) = ((18 : ℕ) : ℝ) * 1 by norm_num, Real.exp_nat_mul]
  have hmono : Real.exp 18 ≤ Real.exp (0.0631846 * 288.15) :=
    Real.exp_le_exp.mpr (by norm_num)
  have hpow : (2.7182818283 : ℝ) ^ 18 ≤ Real.exp 1 ^ 18 :=
    pow_le_pow_left₀ (by norm_num) (le_of_lt Real.exp_one_gt_d9) 18
  have hnum : (65000000 : ℝ) < 2.7182818283 ^ 18 := by norm_num
  rw [h18] at hmono
  linarith

/-- Upper bound for the saturation-vapor exponential at `T = 288.15`. -/
theorem exp_std_ub : Real.exp (0.0631846 * 288.15) < (85000000 : ℝ) := by
  have hq : Real.exp 0.25 < 1.2841 := by
    have h4 : Real.exp 0.25 ^ 4 = Real.exp 1 := by
      rw [← Real.exp_nat_mul]
      norm_num
    by_contra hcon
    push_neg at hcon
    have hple : (1.2841 : ℝ) ^ 4 ≤ Real.exp 0.25 ^ 4 :=
      pow_le_pow_left₀ (by norm_num) hcon 4
    rw [h4] at hple
    have hnum : (2.7189 : ℝ) ≤ (1.2841 : ℝ) ^ 4 := by norm_num
    have := Real.exp_one_lt_d9
    linarith
  have h18 : Real.exp 18 = Real.exp 1 ^ 18 := by
    rw [show (18 : ℝ) = ((18 : ℕ) : ℝ) * 1 by norm_num, Real.exp_nat_mul]
  have h18ub : Real.exp 1 ^ 18 < (2.7182818286 : ℝ) ^ 18 :=
    pow_lt_pow_left₀ Real.exp_one_lt_d9 (le_of_lt (Real.exp_pos 1)) (by norm_num)
  have hsplit : Real.exp (18.25 : ℝ) = Real.exp 18 * Real.exp 0.25 := by
    rw [← Real.exp_add]
    norm_num
  have hmono : Real.exp (0.0631846 * 288.15) < Real.exp 18.25 :=
    Real.exp_lt_exp.mpr (by norm_num)
  have hpos18 : (0 : ℝ) < Real.exp 18 := Real.exp_pos 18
  have hpos14 : (0 : ℝ) < Real.exp 0.25 := Real.exp_pos 0.25
  have hprod : Real.exp 18 * Real.exp 0.25 < (2.7182818286 : ℝ) ^ 18 * 1.2841 := by
    rw [h18]
    have hb : (0 : ℝ) < (2.7182818286 : ℝ) ^ 18 := by positivity
    nlinarith [h18ub, hq, hpos14, hb]
  have hnum : ((2.7182818286 : ℝ) ^ 18) * 1.2841 < 85000000 := by norm_num
  linarith

/-- C5 counterexample: at the standard-atmosphere sample
`T=[288.15]`, `P=[101325]`, `phi=[0.5]`, the computed density is more than
`1e-3` away from the claimed `1.2253`. -/
theorem compute_air_density_std_atmosphere_counterexample :
    compute_air_density Real.exp [(288.15 : ℝ)] [(101325 : ℝ)] (some [(0.5 : ℝ)])
      = Except.ok [density_spec Real.exp 288.15 101325 0.5] ∧
    (1e-3 : ℝ) < |density_spec Real.exp 288.15 101325 0.5 - 1.2253| := by
  constructor
  · simpa [density_pointwise] using
      compute_air_density_eq_ok Real.exp [288.15] [101325] [0.5] rfl rfl
        (by norm_num) (by norm_num) (by norm_num)
  · have hlb := exp_std_lb
    rw [density_spec]
    rw [abs_of_neg (by nlinarith)]
    nlinarith

/-- C5 amended: at the standard-atmosphere sample the computed density is
within `1e-3` of `1.2212` kg per cubic metre. -/
theorem compute_air_density_std_atmosphere_amended :
    compute_air_density Real.exp [(288.15 : ℝ)] [(101325 : ℝ)] (some [(0.5 : ℝ)])
      = Except.ok [density_spec Real.exp 288.15 101325 0.5] ∧
    |density_spec Real.exp 288.15 101325 0.5 - 1.2212| < (1e-3 : ℝ) := by
  constructor
  · simpa [density_pointwise] using
      compute_air_density_eq_ok Real.exp [288.15] [101325] [0.5] rfl rfl
        (by norm_num) (by norm_num) (by norm_num)
  · have hlb := exp_std_lb
    have hub := exp_std_ub
    rw [density_spec, abs_lt]
    constructor
    · nlinarith
    · nlinarith

end ERA5
